import Mathlib

/-!
Shallow embedding of the StyleAgent coordination core (src/src/core/errors.py,
src/src/protocol/ahp.py, src/src/core/registry.py,
src/src/agents/leader_agent.py) and proofs about the specified properties.

Modelling conventions:
* Python wall-clock `datetime` values are modelled as `Nat` timestamps in whole
  seconds; the current time is passed explicitly to any operation that calls
  `datetime.now()`.  For nonnegative whole-second differences,
  `(a - b).seconds` of a Python `timedelta` equals `(a - b) % 86400`.
* Python `float` configuration values (delays, backoff factors) are modelled as
  `ℚ`; every arithmetic operation performed on them by the embedded code
  (multiplication by 2, `min` against 30/60) is exact in binary64 on the
  values reached, so the rational model agrees with the float computation.
* Python dicts keyed by strings are modelled as functions `String → _` (total,
  with the miss default of the dict) or as `List` association lists where the code
  itself materialises entries.
* `uuid.uuid4()` is nondeterministic; operations that mint an id take the
  fresh id as an explicit argument.
* Exceptions are modelled with `Except String`; locks are elided (the
  embedding is the single-threaded semantics of the body of each operation).
-/

namespace StyleAgent

/-! ### src/src/core/errors.py -/

/-- Source `ErrorType` enum from errors.py. -/
inductive ErrorType where
  | timeout
  | tool_failed
  | llm_failed
  | network
  | validation
  | unknown
deriving DecidableEq

/-- Source `ErrorInfo` from errors.py, restricted to the fields `execute_with_retry`
consumes (`error_type`; the message is carried along verbatim).
The substring classification of `ErrorInfo.from_exception` happens at the exception
boundary; the embedded caller supplies already-classified errors. -/
structure ErrorInfo where
  error_type : ErrorType
  message : String
deriving DecidableEq

/-- Source `RetryConfig` from errors.py, with the `__post_init__` default allow-list
inlined as the field default. -/
structure RetryConfig where
  max_retries : Nat := 3
  initial_delay : ℚ := 1
  max_delay : ℚ := 60
  backoff_factor : ℚ := 2
  retry_on : List ErrorType := [.timeout, .network, .tool_failed, .llm_failed]

/-- The observable outcome of one `RetryHandler.execute_with_retry` run for a
single key: the returned value or raised error, how many times `func` was
invoked, the successive `time.sleep` durations, and the final value of
`_attempts.get(key, 0)` (reset pops the key, i.e. yields 0). -/
structure RetryOutcome (α : Type) where
  result : Except ErrorInfo α
  calls : Nat
  delays : List ℚ
  attempts : Nat

/-- Source `RetryHandler.execute_with_retry` (errors.py lines 138-177), unrolled for a
single key.  `f n` is the outcome of the (n+1)-th invocation of `func`.
Each loop iteration: on success, `reset` (attempt counter popped, so 0) and
return; on an exception, `should_retry` demands
`_attempts[key] < max_retries` and `error_type ∈ retry_on`; if so
`record_attempt` increments the counter, `get_delay` then computes
`min(initial_delay * backoff_factor ** attempts, max_delay)` with the already
incremented counter, the handler sleeps and retries; otherwise it raises
`last_error or e` (the previous exception when one exists). -/
def execute_with_retry_from (cfg : RetryConfig) (f : Nat → Except ErrorInfo α)
    (idx : Nat) (attempts : Nat) (last_error : Option ErrorInfo) : RetryOutcome α :=
  match f idx with
  | .ok v => ⟨.ok v, 1, [], 0⟩
  | .error e =>
    if h : attempts < cfg.max_retries ∧ e.error_type ∈ cfg.retry_on then
      let rest := execute_with_retry_from cfg f (idx + 1) (attempts + 1) (some e)
      ⟨rest.result, rest.calls + 1,
        min (cfg.initial_delay * cfg.backoff_factor ^ (attempts + 1)) cfg.max_delay
          :: rest.delays,
        rest.attempts⟩
    else
      ⟨.error (last_error.getD e), 1, [], attempts⟩
termination_by cfg.max_retries - attempts
decreasing_by simp_wf; omega

/-- Source `execute_with_retry` started on a fresh key (no `_attempts` entry, i.e. 0). -/
def execute_with_retry (cfg : RetryConfig) (f : Nat → Except ErrorInfo α) :
    RetryOutcome α :=
  execute_with_retry_from cfg f 0 0 none

/-- Source `CircuitBreaker` state (errors.py lines 241-293).  `state_raw` is the
stored `_state` string; the `state` property below may rewrite it. -/
structure CircuitBreaker where
  failure_threshold : Nat := 5
  timeout : Nat := 60
  failure_count : Nat := 0
  last_failure_time : Option Nat := none
  state_raw : String := "closed"

/-- Source `CircuitBreaker.__init__` defaults: threshold 5, cool-down 60 s. -/
def CircuitBreaker.init : CircuitBreaker := {}

/-- The `state` property: while `_state == "open"`, compare
`(now - last_failure).seconds` (the seconds component, i.e. mod one day)
against the cool-down and switch to `"half_open"` once it is reached.
Reading the property mutates the breaker, so it returns the new breaker too. -/
def CircuitBreaker.state (cb : CircuitBreaker) (now : Nat) : String × CircuitBreaker :=
  if cb.state_raw = "open" then
    match cb.last_failure_time with
    | some t =>
      if (now - t) % 86400 ≥ cb.timeout then
        ("half_open", { cb with state_raw := "half_open" })
      else
        (cb.state_raw, cb)
    | none => (cb.state_raw, cb)
  else
    (cb.state_raw, cb)

/-- Source `record_success`: zero the failure count and close the breaker. -/
def CircuitBreaker.record_success (cb : CircuitBreaker) : CircuitBreaker :=
  { cb with failure_count := 0, state_raw := "closed" }

/-- Source `record_failure`: increment the count, stamp the failure time, and open
the breaker once the threshold is reached. -/
def CircuitBreaker.record_failure (cb : CircuitBreaker) (now : Nat) : CircuitBreaker :=
  let cb' := { cb with failure_count := cb.failure_count + 1,
                       last_failure_time := some now }
  if cb'.failure_count ≥ cb'.failure_threshold then
    { cb' with state_raw := "open" }
  else
    cb'

/-- Source `can_execute`: `self.state != "open"` (reading the property may transition
Open to HalfOpen, hence the updated breaker in the result). -/
def CircuitBreaker.can_execute (cb : CircuitBreaker) (now : Nat) : Bool × CircuitBreaker :=
  let sc := cb.state now
  (sc.1 != "open", sc.2)

/-- Five consecutive `record_failure()` calls at time `t` on a fresh breaker
(threshold 5, cool-down 60): the scenario of the breaker property. -/
def breaker_after_5_failures (t : Nat) : CircuitBreaker :=
  ((((CircuitBreaker.init.record_failure t).record_failure t).record_failure
    t).record_failure t).record_failure t

/-! ### src/src/protocol/ahp.py -/

/-- Source `AHPMethod` string constants. -/
def AHPMethod.TASK : String := "TASK"

/-- Source `AHPMethod.RESULT`. -/
def AHPMethod.RESULT : String := "RESULT"

/-- Source `AHPMethod.PROGRESS`. -/
def AHPMethod.PROGRESS : String := "PROGRESS"

/-- Source `AHPMethod.HEARTBEAT`. -/
def AHPMethod.HEARTBEAT : String := "HEARTBEAT"

/-- Source `AHPMethod.ACK`. -/
def AHPMethod.ACK : String := "ACK"

/-- The `result` sub-dict of the payload of a RESULT envelope, restricted to the
keys read by the collection loop of the leader (`payload["result"].get(...)`).
`none` models an absent key. -/
structure ResultData where
  error : Option String := none
  category : Option String := none
  items : List String := []
  colors : List String := []
  styles : List String := []
  reasons : List String := []
  price_range : Option String := none
deriving DecidableEq

/-- An envelope payload (`Dict[str, Any]`), restricted to the keys read by the
embedded consumers.  `none` models an absent key. -/
structure Payload where
  result : Option ResultData := none
  status : Option String := none
  progress : Option ℚ := none
  message : Option String := none
  ack_status : Option String := none
deriving DecidableEq

/-- Source `AHPMessage` dataclass (ahp.py lines 82-94).  The timestamp is a `Nat`
second count; `message_id` is supplied by the sender (uuid determinised). -/
structure AHPMessage where
  method : String
  agent_id : String
  target_agent : String
  task_id : String
  session_id : String
  payload : Payload := {}
  token_limit : Nat := 500
  timestamp : Nat := 0
  message_id : String := ""
deriving DecidableEq

/-- A dead-letter entry as built by `MessageQueue.to_dlq` (ahp.py 196-201). -/
structure DlqEntry where
  message : AHPMessage
  error : String
  timestamp : Nat
  retry_count : Nat
deriving DecidableEq

/-- Source `MessageQueue` state (ahp.py lines 131-144): per-agent FIFO queues,
per-agent dedup id sets (modelled as lists with membership), heartbeat table,
dead-letter lists, and per-message retry counters (`Dict.get(_, 0)` modelled
as a total function with default 0). -/
structure MessageQueue where
  queues : String → List AHPMessage
  message_ids : String → List String
  heartbeats : String → Option Nat
  dlq : String → List DlqEntry
  retry_count : String → Nat
  max_retries : Nat
  retry_delay : ℚ

/-- Source `MessageQueue.__init__` with its defaults. -/
def MessageQueue.init : MessageQueue :=
  { queues := fun _ => []
    message_ids := fun _ => []
    heartbeats := fun _ => none
    dlq := fun _ => []
    retry_count := fun _ => 0
    max_retries := 3
    retry_delay := 1 }

/-- Source `MessageQueue.send` (ahp.py lines 153-166): if the message id was already
seen by this recipient the envelope is dropped (logged, no error, no state
change); otherwise the id is recorded and the envelope enqueued at the back
of the FIFO queue of the recipient. -/
def MessageQueue.send (mq : MessageQueue) (agent_id : String) (message : AHPMessage) :
    MessageQueue :=
  if message.message_id ∈ mq.message_ids agent_id then
    mq
  else
    { mq with
      message_ids := fun a =>
        if a = agent_id then message.message_id :: mq.message_ids agent_id
        else mq.message_ids a
      queues := fun a =>
        if a = agent_id then mq.queues agent_id ++ [message]
        else mq.queues a }

/-- Source `MessageQueue.receive` (ahp.py lines 168-173): blocking pop with timeout,
modelled on the queue contents available at the call — returns the front
message, or `none` when the queue stays empty until the timeout expires. -/
def MessageQueue.receive (mq : MessageQueue) (agent_id : String) :
    Option AHPMessage × MessageQueue :=
  match mq.queues agent_id with
  | [] => (none, mq)
  | m :: rest =>
    (some m, { mq with queues := fun a => if a = agent_id then rest else mq.queues a })

/-- Source `MessageQueue.update_heartbeat`: stamp the heartbeat of the agent with now. -/
def MessageQueue.update_heartbeat (mq : MessageQueue) (agent_id : String) (now : Nat) :
    MessageQueue :=
  { mq with heartbeats := fun a => if a = agent_id then some now else mq.heartbeats a }

/-- Source `MessageQueue.get_heartbeat`. -/
def MessageQueue.get_heartbeat (mq : MessageQueue) (agent_id : String) : Option Nat :=
  mq.heartbeats agent_id

/-- Source `MessageQueue.to_dlq` (ahp.py lines 190-203): append a snapshot of the
envelope with error text, timestamp and the current retry count of the message to
the dead-letter list of the recipient. -/
def MessageQueue.to_dlq (mq : MessageQueue) (agent_id : String) (message : AHPMessage)
    (error : String) (now : Nat) : MessageQueue :=
  { mq with
    dlq := fun a =>
      if a = agent_id then
        mq.dlq agent_id ++ [⟨message, error, now, mq.retry_count message.message_id⟩]
      else mq.dlq a }

/-- Source `MessageQueue.is_alive` (ahp.py lines 236-241): optimistically true when no
heartbeat was ever recorded; otherwise compares
`(datetime.now() - last_heartbeat).seconds` — the seconds component of the
elapsed time, i.e. the elapsed whole seconds modulo one day — against the
timeout.  `AsyncMessageQueue.is_alive` (ahp.py lines 624-629) is the same
computation character for character and is covered by this one embedding. -/
def MessageQueue.is_alive (mq : MessageQueue) (agent_id : String) (now : Nat)
    (timeout : Nat) : Bool :=
  match mq.get_heartbeat agent_id with
  | none => true
  | some t => (now - t) % 86400 < timeout

/-- A user-profile dict as consumed by
`TokenController.create_compact_instruction` (ahp.py lines 266-282).  `none`
models an absent key; Python truthiness makes empty strings, 0 and empty
lists behave like absent values, which the embedding reproduces at each use
site. -/
structure UserProfile where
  name : Option String := none
  gender : Option String := none
  age : Option Nat := none
  occupation : Option String := none
  mood : Option String := none
  hobbies : Option (List String) := none
deriving DecidableEq

/-- The task dict passed to `create_compact_instruction`. -/
structure TaskSpec where
  category : Option String := none
  instruction : Option String := none
deriving DecidableEq

/-- Source `TokenController` (ahp.py lines 244-248); the per-agent quota table does
not participate in instruction building and is omitted. -/
structure TokenController where
  default_limit : Nat := 500
deriving DecidableEq

/-- Source `TokenController.__init__` default: limit 500. -/
def TokenController.init : TokenController := {}

/-- Python truthiness of an optional string (`None` and `""` are falsy). -/
def strTruthy : Option String → Bool
  | some s => s ≠ ""
  | none => false

/-- The `key_info` list built from only-present profile facts
(ahp.py lines 272-282), respecting Python truthiness (`""`, `0`, `[]` are
falsy and skipped). -/
def key_info_parts (p : UserProfile) : List String :=
  (if strTruthy p.gender then ["Gender: " ++ p.gender.getD ""] else []) ++
  (match p.age with
   | some a => if a ≠ 0 then ["Age: " ++ toString a] else []
   | none => []) ++
  (if strTruthy p.occupation then ["Occupation: " ++ p.occupation.getD ""] else []) ++
  (if strTruthy p.mood then ["Mood: " ++ p.mood.getD ""] else []) ++
  (match p.hobbies with
   | some hs => if hs ≠ [] then ["Hobbies: " ++ String.intercalate "," hs] else []
   | none => [])

/-- The `instruction_parts` assembled before the optional context section
(ahp.py lines 266-289): header, target, joined key facts when any, and the
requirement line when the task has a truthy instruction. -/
def header_parts (p : UserProfile) (t : TaskSpec) : List String :=
  let base := ["Task: " ++ t.category.getD "unknown",
               "Target: " ++ p.name.getD "User"]
  let base :=
    if key_info_parts p ≠ [] then
      base ++ ["User Info: " ++ String.intercalate "; " (key_info_parts p)]
    else base
  if strTruthy t.instruction then
    base ++ ["Requirement: " ++ t.instruction.getD ""]
  else base

/-- Source `TokenController.create_compact_instruction` (ahp.py lines 259-298).
`limit = max_tokens or self.default_limit` — a falsy (0 or absent)
`max_tokens` falls back to the default.  With a truthy context, the remaining
budget `available = limit - sum(len(p) for p in parts) - 50` is computed (an
integer, possibly negative) and the context section
`"Context: " + context[:available]` is appended only when `available > 100`.
All parts are joined with newlines. -/
def TokenController.create_compact_instruction (tc : TokenController)
    (user_profile : UserProfile) (task : TaskSpec) (context : String)
    (max_tokens : Option Nat) : String :=
  let limit : Nat :=
    match max_tokens with
    | none => tc.default_limit
    | some n => if n = 0 then tc.default_limit else n
  let instruction_parts := header_parts user_profile task
  let instruction_parts :=
    if context ≠ "" then
      let available : ℤ :=
        (limit : ℤ) - ((instruction_parts.map String.length).sum : ℤ) - 50
      if available > 100 then
        instruction_parts ++ ["Context: " ++ context.take available.toNat]
      else instruction_parts
    else instruction_parts
  String.intercalate "\n" instruction_parts

/-! ### src/src/core/registry.py -/

/-- Source `TaskStatus` enum from registry.py. -/
inductive TaskStatus where
  | pending
  | in_progress
  | completed
  | failed
  | cancelled
deriving DecidableEq

/-- Source `TaskRecord` dataclass (registry.py lines 28-47); timestamps are the usual
`Nat` seconds; the per-record `threading.Lock` is elided. -/
structure TaskRecord where
  task_id : String
  session_id : String
  parent_task_id : Option String := none
  title : String := ""
  description : String := ""
  category : String := ""
  status : TaskStatus := .pending
  assignee_agent_id : Option String := none
  result : Option (List (String × String)) := none
  error_message : Option String := none
  retry_count : Nat := 0
  max_retries : Nat := 3
  created_at : Nat := 0
  updated_at : Nat := 0
  completed_at : Option Nat := none
deriving DecidableEq

/-- A value stored in `TaskRegistry._memory_cache`.  `register_task` stores a
`TaskRecord` dataclass; a cache miss repopulated from `storage.get_task`
stores the plain `Dict` the storage layer returns.  Python attribute access
(`task.status`) works only on the dataclass; dict access (`task.get`,
`task["status"]`) works only on the dict — mixing them raises
`AttributeError`, which the embedding surfaces as `Except.error`. -/
inductive CacheEntry where
  | record (r : TaskRecord)
  | dict (r : TaskRecord)
deriving DecidableEq

/-- Source `TaskRegistry` state: the memory cache and, as the external collaborator
boundary, the map of tasks the Durable Store would return from `get_task`
(as dicts).  Storage writes are best-effort and logged-only in the source,
so they do not feed back into the behaviour of the registry. -/
structure TaskRegistry where
  memory_cache : String → Option CacheEntry
  storage_tasks : String → Option TaskRecord

/-- A fresh registry (empty cache; storage modelled as empty too). -/
def TaskRegistry.init : TaskRegistry :=
  { memory_cache := fun _ => none, storage_tasks := fun _ => none }

/-- Source `TaskRegistry.register_task` (registry.py lines 82-119): create a Pending
`TaskRecord` dataclass, put it in the memory cache, best-effort persist
(external, logged-only on failure), and return the task id.  The fresh
`uuid.uuid4()` id is taken as the `task_id` argument. -/
def TaskRegistry.register_task (reg : TaskRegistry) (task_id : String)
    (session_id : String) (title : String) (description : String)
    (category : String) (parent_task_id : Option String) (max_retries : Nat)
    (now : Nat) : String × TaskRegistry :=
  let task : TaskRecord :=
    { task_id := task_id, session_id := session_id, title := title,
      description := description, category := category,
      parent_task_id := parent_task_id, max_retries := max_retries,
      status := .pending, created_at := now, updated_at := now }
  (task_id,
   { reg with memory_cache := fun id =>
       if id = task_id then some (.record task) else reg.memory_cache id })

/-- The dict-style status check and claim update performed by `claim_task`
(registry.py lines 145-162) on whatever object the cache lookup produced:
`task.get("status")` / `task["status"] = ...` succeed on a storage dict but
raise `AttributeError` on the `TaskRecord` dataclass `register_task` cached. -/
def claim_check (reg : TaskRegistry) (entry : CacheEntry) (agent_id : String)
    (task_id : String) (now : Nat) : Except String (Bool × TaskRegistry) :=
  match entry with
  | .record _ => .error "AttributeError: TaskRecord object has no attribute get"
  | .dict d =>
    if d.status ≠ .pending then
      .ok (false, reg)
    else
      let d' := { d with status := .in_progress,
                         assignee_agent_id := some agent_id, updated_at := now }
      .ok (true,
        { reg with memory_cache := fun id =>
            if id = task_id then some (.dict d') else reg.memory_cache id })

/-- Source `TaskRegistry.claim_task` (registry.py lines 121-162): under the per-task
lock, look the task up in the memory cache, falling back to the store (and
caching the returned dict); return false when it does not exist; then check
and update the status with dict access. -/
def TaskRegistry.claim_task (reg : TaskRegistry) (agent_id : String)
    (task_id : String) (now : Nat) : Except String (Bool × TaskRegistry) :=
  match reg.memory_cache task_id with
  | some entry => claim_check reg entry agent_id task_id now
  | none =>
    match reg.storage_tasks task_id with
    | none => .ok (false, reg)
    | some d =>
      let reg' :=
        { reg with memory_cache := fun id =>
            if id = task_id then some (.dict d) else reg.memory_cache id }
      claim_check reg' (.dict d) agent_id task_id now

/-- Source `TaskRegistry.update_status` (registry.py lines 164-216): look up the task
(cache first, then store), return false when absent; update the record with
attribute access — which raises `AttributeError` when the cached object is a
storage dict — setting the new status, `updated_at`, the truthy result /
error fields, and `completed_at` only when the new status is COMPLETED or
FAILED; best-effort persist; return true. -/
def TaskRegistry.update_status (reg : TaskRegistry) (task_id : String)
    (status : TaskStatus) (result : Option (List (String × String)))
    (error_message : Option String) (now : Nat) :
    Except String (Bool × TaskRegistry) :=
  let go : CacheEntry → Except String (Bool × TaskRegistry) := fun entry =>
    match entry with
    | .dict _ => .error "AttributeError: dict object has no attribute status"
    | .record r =>
      let r := { r with status := status, updated_at := now }
      let r :=
        match result with
        | some l => if l ≠ [] then { r with result := some l } else r
        | none => r
      let r :=
        match error_message with
        | some s => if s ≠ "" then { r with error_message := some s } else r
        | none => r
      let r :=
        if status = .completed ∨ status = .failed then
          { r with completed_at := some now }
        else r
      .ok (true,
        { reg with memory_cache := fun id =>
            if id = task_id then some (.record r) else reg.memory_cache id })
  match reg.memory_cache task_id with
  | some entry => go entry
  | none =>
    match reg.storage_tasks task_id with
    | none => .ok (false, reg)
    | some d => go (.dict d)

/-- Source `TaskRegistry.cancel_task` (registry.py lines 286-288). -/
def TaskRegistry.cancel_task (reg : TaskRegistry) (task_id : String) (now : Nat) :
    Except String (Bool × TaskRegistry) :=
  reg.update_status task_id .cancelled none none now

/-- Projection used to observe `completed_at` of the cached record after a
registry operation (`some x` = the operation returned ok and the cache holds
a dataclass record whose `completed_at` is `x`). -/
def completed_at_of (res : Except String (Bool × TaskRegistry)) (task_id : String) :
    Option (Option Nat) :=
  match res with
  | .ok (_, reg) =>
    match reg.memory_cache task_id with
    | some (.record r) => some r.completed_at
    | _ => none
  | .error _ => none

/-- Projection of the status of the cached record after a registry operation. -/
def status_of (res : Except String (Bool × TaskRegistry)) (task_id : String) :
    Option TaskStatus :=
  match res with
  | .ok (_, reg) =>
    match reg.memory_cache task_id with
    | some (.record r) => some r.status
    | _ => none
  | .error _ => none

/-! ### src/src/agents/leader_agent.py -/

/-- Source `OutfitRecommendation` dataclass (models.py lines 109-118). -/
structure OutfitRecommendation where
  category : String
  items : List String := []
  colors : List String := []
  styles : List String := []
  reasons : List String := []
  price_range : String := ""
deriving DecidableEq

/-- Source `OutfitTask`, restricted to the fields `_collect_results` reads. -/
structure OutfitTask where
  category : String
  assignee_agent_id : String
deriving DecidableEq

/-- The fan-in bookkeeping of the leader inside `_collect_results`
(leader_agent.py lines 542-547): the category-keyed result map, the set of
senders marked received (a list with set semantics), and the shared message
queue (whose dead-letter sink `to_dlq` writes into). -/
structure CollectState where
  results : List (String × OutfitRecommendation)
  received : List String
  mq : MessageQueue

/-- Insert into a set-as-list (no duplicates). -/
def insert_id (a : String) (l : List String) : List String :=
  if l.contains a then l else l ++ [a]

/-- Python dict assignment `results[category] = rec`: overwrite when present,
append otherwise. -/
def assoc_set (l : List (String × OutfitRecommendation)) (k : String)
    (v : OutfitRecommendation) : List (String × OutfitRecommendation) :=
  if l.any (fun p => p.1 = k) then
    l.map (fun p => if p.1 = k then (k, v) else p)
  else l ++ [(k, v)]

/-- One iteration of the demultiplexer in the sync `_collect_results` main
loop (leader_agent.py lines 596-651) as the code actually executes: ACK is
logged and skipped; the branch `if msg.method == AHPMethod.PROGRESS:` at line
602 executes `continue` immediately, so the result-handling statements on
lines 604-633 (failed-status dead-lettering, result recording, received
marking) sit after that `continue` inside the same branch and are
unreachable, and the duplicate `elif msg.method == AHPMethod.PROGRESS:` at
line 638 can never fire; a RESULT envelope matches no branch and falls
through the loop body with no state change. -/
def collect_step (s : CollectState) (msg : AHPMessage) : CollectState :=
  if msg.method = AHPMethod.ACK then s
  else if msg.method = AHPMethod.PROGRESS then s
  else s

/-- The effect of the fan-in loop on its bookkeeping given the sequence of
envelopes the main loop receives from the leader mailbox before the deadline
(the background progress thread only diverts envelopes; any envelope it
consumes is logged and dropped, so routing all replies through the main loop
is the most favourable schedule for result collection). -/
def collect_results_actual (mq0 : MessageQueue) (msgs : List AHPMessage) :
    CollectState :=
  msgs.foldl collect_step ⟨[], [], mq0⟩

/-- The intended demultiplexer, reconstructed from the unreachable statements
on leader_agent.py lines 604-633 (guard restored to
`if msg.method == AHPMethod.RESULT:`, which the dangling
`elif msg.method == AHPMethod.PROGRESS:` at line 638 shows was the original
shape) and matching spec 4.7: a failed RESULT is dead-lettered and its sender
marked received; a success RESULT is recorded under its category and its
sender marked received.  The registry write-through on lines 627-631 is
outside this state and omitted. -/
def collect_step_intended (now : Nat) (s : CollectState) (msg : AHPMessage) :
    CollectState :=
  if msg.method = AHPMethod.ACK then s
  else if msg.method = AHPMethod.RESULT then
    let result_data := msg.payload.result.getD {}
    let status := msg.payload.status.getD "success"
    if status = "failed" then
      let error_msg := result_data.error.getD "Unknown error"
      { s with mq := s.mq.to_dlq msg.agent_id msg error_msg now,
               received := insert_id msg.agent_id s.received }
    else
      let category := result_data.category.getD "unknown"
      let rec0 : OutfitRecommendation :=
        { category := category, items := result_data.items,
          colors := result_data.colors, styles := result_data.styles,
          reasons := result_data.reasons,
          price_range := result_data.price_range.getD "" }
      { s with results := assoc_set s.results category rec0,
               received := insert_id msg.agent_id s.received }
  else s

/-- The intended fan-in over a message sequence. -/
def collect_results_intended (now : Nat) (mq0 : MessageQueue)
    (msgs : List AHPMessage) : CollectState :=
  msgs.foldl (collect_step_intended now) ⟨[], [], mq0⟩

/-- The missing-sender report computed after the loop
(leader_agent.py line 654): expected assignees not marked received. -/
def missing_after (tasks : List OutfitTask) (s : CollectState) : List String :=
  (tasks.map (fun t => t.assignee_agent_id)).filter
    (fun a => !(s.received.contains a))

/-! ### Concrete scenario data -/

/-- A concrete envelope used in the duplicate-send scenario. -/
def c5_msg : AHPMessage :=
  { method := AHPMethod.RESULT, agent_id := "agent_head", target_agent := "leader",
    task_id := "task-head", session_id := "session-1", message_id := "id-1" }

/-- The four replies of the partial-failure fan-in scenario: three success
RESULT envelopes (head/top/bottom) and one failed RESULT envelope (shoes),
shaped as `AHPReceiver.send_result` builds them
(`payload = {"result": ..., "status": ...}`). -/
def c1_msgs : List AHPMessage :=
  [{ method := AHPMethod.RESULT, agent_id := "agent_head", target_agent := "leader",
     task_id := "t-head", session_id := "s-1", message_id := "m-1",
     payload := { result := some { category := some "head", items := ["beret"] },
                  status := some "success" } },
   { method := AHPMethod.RESULT, agent_id := "agent_top", target_agent := "leader",
     task_id := "t-top", session_id := "s-1", message_id := "m-2",
     payload := { result := some { category := some "top", items := ["jacket"] },
                  status := some "success" } },
   { method := AHPMethod.RESULT, agent_id := "agent_bottom", target_agent := "leader",
     task_id := "t-bottom", session_id := "s-1", message_id := "m-3",
     payload := { result := some { category := some "bottom", items := ["jeans"] },
                  status := some "success" } },
   { method := AHPMethod.RESULT, agent_id := "agent_shoes", target_agent := "leader",
     task_id := "t-shoes", session_id := "s-1", message_id := "m-4",
     payload := { result := some { error := some "llm call failed" },
                  status := some "failed" } }]

/-- The four dispatched tasks of the fan-in scenario, one per worker. -/
def c1_tasks : List OutfitTask :=
  [⟨"head", "agent_head"⟩, ⟨"top", "agent_top"⟩,
   ⟨"bottom", "agent_bottom"⟩, ⟨"shoes", "agent_shoes"⟩]

/-! ## Theorems -/

set_option maxRecDepth 2000

/-- General run lemma for `execute_with_retry_from` on a function whose every
call fails with a retryable error: starting from `attempts ≤ max_retries`, the
function is invoked `max_retries - attempts + 1` more times, the j-th
additional sleep lasts
`min (initial_delay * backoff_factor ^ (attempts + j + 1)) max_delay`
(the counter is incremented *before* `get_delay` reads it), the run ends by
raising, and the attempt counter ends at `max_retries`. -/
theorem execute_with_retry_alwaysFail {α : Type} (cfg : RetryConfig)
    (f : Nat → Except ErrorInfo α)
    (hf : ∀ n, ∃ e, f n = .error e ∧ e.error_type ∈ cfg.retry_on) :
    ∀ (k idx attempts : Nat) (le : Option ErrorInfo),
      cfg.max_retries - attempts = k → attempts ≤ cfg.max_retries →
    (execute_with_retry_from cfg f idx attempts le).calls
        = cfg.max_retries - attempts + 1 ∧
    (execute_with_retry_from cfg f idx attempts le).delays =
      (List.range (cfg.max_retries - attempts)).map
        (fun j => min (cfg.initial_delay * cfg.backoff_factor ^ (attempts + j + 1))
          cfg.max_delay) ∧
    (∃ err, (execute_with_retry_from cfg f idx attempts le).result = .error err) ∧
    (execute_with_retry_from cfg f idx attempts le).attempts = cfg.max_retries := by
  intro k
  induction k with
  | zero =>
    intro idx attempts le hk hle
    obtain ⟨e, he, hm⟩ := hf idx
    have hat : attempts = cfg.max_retries := by omega
    rw [execute_with_retry_from, he]
    simp only [hat, lt_self_iff_false, false_and, dite_false]
    refine ⟨?_, ?_, ⟨le.getD e, rfl⟩, ?_⟩
    · show 1 = cfg.max_retries - cfg.max_retries + 1
      omega
    · show ([] : List ℚ) = _
      rw [Nat.sub_self]
      simp
    · trivial
  | succ k ih =>
    intro idx attempts le hk hle
    obtain ⟨e, he, hm⟩ := hf idx
    have hlt : attempts < cfg.max_retries := by omega
    rw [execute_with_retry_from, he]
    simp only [hlt, hm, and_self, dite_true]
    obtain ⟨ic, idl, ⟨err, ier⟩, iat⟩ :=
      ih (idx + 1) (attempts + 1) (some e) (by omega) (by omega)
    refine ⟨?_, ?_, ⟨err, ier⟩, iat⟩
    · show (execute_with_retry_from cfg f (idx + 1) (attempts + 1) (some e)).calls + 1 = _
      omega
    · show min (cfg.initial_delay * cfg.backoff_factor ^ (attempts + 1)) cfg.max_delay
          :: (execute_with_retry_from cfg f (idx + 1) (attempts + 1) (some e)).delays = _
      rw [idl]
      have hr : cfg.max_retries - attempts = (cfg.max_retries - (attempts + 1)) + 1 := by
        omega
      rw [hr, List.range_succ_eq_map, List.map_cons, List.map_map]
      congr 1
      congr 1
      funext j
      simp only [Function.comp_apply]
      have h2 : attempts + (j + 1) + 1 = attempts + 1 + j + 1 := by omega
      rw [h2]

/-- Claim C3: with `max_retries = 3`, `execute_with_retry` applied to a
function failing on every call with a retryable error calls it exactly 4
times (1 initial + 3 retries) and then raises; applied to a function that
fails once with a retryable error and succeeds on the 2nd call, it returns
that result and resets the attempt counter for the key to 0. -/
theorem claim_C3_retry_bound {α : Type} (cfg : RetryConfig) (e : ErrorInfo)
    (h3 : cfg.max_retries = 3) (hret : e.error_type ∈ cfg.retry_on) :
    ((execute_with_retry cfg (fun _ => (.error e : Except ErrorInfo α))).calls = 4 ∧
     ∃ err, (execute_with_retry cfg
        (fun _ => (.error e : Except ErrorInfo α))).result = .error err) ∧
    (∀ (f : Nat → Except ErrorInfo α) (v : α), f 0 = .error e → f 1 = .ok v →
      (execute_with_retry cfg f).result = .ok v ∧
      (execute_with_retry cfg f).calls = 2 ∧
      (execute_with_retry cfg f).attempts = 0) := by
  constructor
  · obtain ⟨hc, _, hres, _⟩ :=
      execute_with_retry_alwaysFail cfg (fun _ => (.error e : Except ErrorInfo α))
        (fun _ => ⟨e, rfl, hret⟩) cfg.max_retries 0 0 none (by omega) (by omega)
    refine ⟨?_, hres⟩
    rw [execute_with_retry]
    omega
  · intro f v hf0 hf1
    rw [execute_with_retry]
    rw [execute_with_retry_from, hf0]
    simp only [show 0 < cfg.max_retries by omega, hret, and_self, dite_true]
    rw [execute_with_retry_from, hf1]
    exact ⟨rfl, rfl, rfl⟩

/-- Witness for C3 at the concrete configuration of the claim. -/
theorem claim_C3_retry_bound_witness :
    (execute_with_retry { max_retries := 3 }
        (fun _ => (.error ⟨.timeout, "request timeout"⟩ : Except ErrorInfo Nat))).calls
      = 4 ∧
    (execute_with_retry { max_retries := 3 }
        (fun n => if n = 0 then .error ⟨.timeout, "request timeout"⟩
                  else (.ok 7 : Except ErrorInfo Nat))).result = .ok 7 :=
  ⟨(claim_C3_retry_bound { max_retries := 3 } ⟨.timeout, "request timeout"⟩ rfl
      (by simp)).1.1,
   ((claim_C3_retry_bound { max_retries := 3 } ⟨.timeout, "request timeout"⟩ rfl
      (by simp)).2 _ 7 rfl rfl).1⟩

/-- Counterexample to claim C4 as stated: with
`initial_delay = 1, backoff_factor = 2, max_delay = 30` and `max_retries = 3`,
the successive sleep delays of an always-failing retryable run are
`[2, 4, 8]`, not the claimed `[min (1·2^0) 30, min (1·2^1) 30, min (1·2^2) 30]
= [1, 2, 4]`: `record_attempt` runs before `get_delay`, so the exponent used
before the k-th retry is k, not k−1. -/
theorem claim_C4_counterexample :
    (execute_with_retry
        { max_retries := 3, initial_delay := 1, max_delay := 30, backoff_factor := 2 }
        (fun _ => (.error ⟨.timeout, "request timeout"⟩ : Except ErrorInfo Nat))).delays
      = [2, 4, 8] ∧
    (execute_with_retry
        { max_retries := 3, initial_delay := 1, max_delay := 30, backoff_factor := 2 }
        (fun _ => (.error ⟨.timeout, "request timeout"⟩ : Except ErrorInfo Nat))).delays
      ≠ [min ((1:ℚ) * 2 ^ (0:Nat)) 30, min ((1:ℚ) * 2 ^ (1:Nat)) 30,
         min ((1:ℚ) * 2 ^ (2:Nat)) 30] := by
  have h := execute_with_retry_alwaysFail
      { max_retries := 3, initial_delay := 1, max_delay := 30, backoff_factor := 2 }
      (fun _ => (.error ⟨.timeout, "request timeout"⟩ : Except ErrorInfo Nat))
      (fun _ => ⟨⟨.timeout, "request timeout"⟩, rfl, by simp⟩) 3 0 0 none rfl (by omega)
  rw [execute_with_retry] at *
  constructor
  · rw [h.2.1]
    norm_num [List.range_succ, min_def]
  · rw [h.2.1]
    norm_num [List.range_succ, min_def]

/-- Claim C4 (amended): with `initial_delay = 1, backoff_factor = 2,
max_delay = 30`, the delay slept before the k-th retry (k ≥ 1) is
`min (1 * 2 ^ k) 30` — the exponent is the attempt counter *after* the
increment for the current failure, so the sequence is 2, 4, 8, … — and no
delay ever exceeds 30. -/
theorem claim_C4_backoff_growth {α : Type} (m : Nat) (e : ErrorInfo)
    (hret : e.error_type ∈
      ([.timeout, .network, .tool_failed, .llm_failed] : List ErrorType)) :
    (execute_with_retry
        { max_retries := m, initial_delay := 1, max_delay := 30, backoff_factor := 2 }
        (fun _ => (.error e : Except ErrorInfo α))).delays
      = (List.range m).map (fun k => min ((2:ℚ) ^ (k + 1)) 30) ∧
    ∀ d ∈ (execute_with_retry
        { max_retries := m, initial_delay := 1, max_delay := 30, backoff_factor := 2 }
        (fun _ => (.error e : Except ErrorInfo α))).delays, d ≤ 30 := by
  have h := execute_with_retry_alwaysFail
      { max_retries := m, initial_delay := 1, max_delay := 30, backoff_factor := 2 }
      (fun _ => (.error e : Except ErrorInfo α))
      (fun _ => ⟨e, rfl, hret⟩) m 0 0 none (by simp) (by omega)
  rw [execute_with_retry] at *
  constructor
  · rw [h.2.1]
    norm_num
  · intro d hd
    rw [h.2.1] at hd
    simp only [List.mem_map] at hd
    obtain ⟨j, _, rfl⟩ := hd
    exact min_le_right _ _

/-- Witness for the amended statement of C4 at `max_retries = 3`: the delays are
exactly `[2, 4, 8]`, all ≤ 30. -/
theorem claim_C4_backoff_growth_witness :
    ErrorType.timeout ∈
      ([.timeout, .network, .tool_failed, .llm_failed] : List ErrorType) ∧
    (execute_with_retry
        { max_retries := 3, initial_delay := 1, max_delay := 30, backoff_factor := 2 }
        (fun _ => (.error ⟨.timeout, "request timeout"⟩ : Except ErrorInfo Nat))).delays
      = [2, 4, 8] := by
  refine ⟨by simp, ?_⟩
  rw [(claim_C4_backoff_growth 3 ⟨.timeout, "request timeout"⟩ (by simp)).1]
  norm_num [List.range_succ, min_def]

/-- Characterisation of `can_execute` for an open breaker with cool-down 60:
the guard opens up exactly when the *seconds component* of the elapsed time
since the last failure — `(now - t) % 86400` — reaches 60. -/
theorem can_execute_open_iff (cb : CircuitBreaker) (t now : Nat)
    (hs : cb.state_raw = "open") (hl : cb.last_failure_time = some t)
    (ht : cb.timeout = 60) :
    ((cb.can_execute now).1 = true ↔ 60 ≤ (now - t) % 86400) := by
  simp only [CircuitBreaker.can_execute, CircuitBreaker.state, hs, hl, ht, if_true]
  by_cases hc : 60 ≤ (now - t) % 86400
  · simp [hc]
  · simp [hc]

/-- Counterexample to claim C6 as stated: after 5 consecutive failures at
time 0, at `now = 86410` (one day plus 10 seconds later) the cool-down of
60 s has long elapsed in real time, yet `can_execute()` still returns false,
because the `state` property compares only `(now − last_failure).seconds`
(10 s) against the cool-down.  So `can_execute` is *not* false only while the
cool-down has not elapsed. -/
theorem claim_C6_counterexample :
    ((breaker_after_5_failures 0).can_execute 86410).1 = false ∧
    60 ≤ 86410 - 0 := by
  constructor
  · decide
  · decide

/-- Claim C6 (amended): after `failure_threshold = 5` consecutive
`record_failure()` calls the breaker is Open with count 5 and
`can_execute()` is false immediately; it stays false whenever less than the
60 s cool-down has passed since the last failure; in general it is true
exactly when the *seconds component* of the elapsed time,
`(now − t) % 86400`, has reached the cool-down (so it can read false again
long after the real cool-down elapsed, e.g. one day later); and a single
`record_success()` at any point resets `failure_count` to 0 and makes
`can_execute()` true. -/
theorem claim_C6_breaker (t now : Nat) (h : t ≤ now) :
    (breaker_after_5_failures t).state_raw = "open" ∧
    (breaker_after_5_failures t).failure_count = 5 ∧
    ((breaker_after_5_failures t).can_execute t).1 = false ∧
    (now - t < 60 → ((breaker_after_5_failures t).can_execute now).1 = false) ∧
    (((breaker_after_5_failures t).can_execute now).1 = true ↔
      60 ≤ (now - t) % 86400) ∧
    ∀ cb : CircuitBreaker, (cb.record_success).failure_count = 0 ∧
      ((cb.record_success).can_execute now).1 = true := by
  have hb : breaker_after_5_failures t
      = ⟨5, 60, 5, some t, "open"⟩ := rfl
  refine ⟨by rw [hb], by rw [hb], ?_, ?_, ?_, ?_⟩
  · rw [← Bool.not_eq_true, can_execute_open_iff _ t t (by rw [hb]) (by rw [hb])
      (by rw [hb])]
    omega
  · intro hlt
    rw [← Bool.not_eq_true, can_execute_open_iff _ t now (by rw [hb]) (by rw [hb])
      (by rw [hb])]
    omega
  · exact can_execute_open_iff _ t now (by rw [hb]) (by rw [hb]) (by rw [hb])
  · intro cb
    refine ⟨rfl, ?_⟩
    simp [CircuitBreaker.record_success, CircuitBreaker.can_execute,
      CircuitBreaker.state]

/-- Witness for C6 at `t = 0`, `now = 10`: the fresh 5-failure breaker still
refuses execution 10 s after the failures. -/
theorem claim_C6_breaker_witness :
    ((breaker_after_5_failures 0).can_execute 10).1 = false :=
  (claim_C6_breaker 0 10 (by omega)).2.2.2.1 (by omega)

/-- Claim C5: sending two envelopes with the same `message_id` to the same
recipient delivers exactly one message — the first send enqueues the envelope
and the second changes nothing — and in general, once a message id has been
seen by a mailbox, any later send with that id to the same mailbox is a
no-op (dropped without error, nothing delivered). -/
theorem claim_C5_dedup (mq : MessageQueue) (r : String) (m m' : AHPMessage)
    (hid : m'.message_id = m.message_id) :
    (m.message_id ∉ mq.message_ids r →
      ((mq.send r m).send r m').queues r = mq.queues r ++ [m] ∧
      ((mq.send r m).send r m') = mq.send r m) ∧
    (m.message_id ∈ mq.message_ids r → mq.send r m = mq) := by
  constructor
  · intro hnot
    have h1 : mq.send r m =
        { mq with
          message_ids := fun a =>
            if a = r then m.message_id :: mq.message_ids r else mq.message_ids a
          queues := fun a =>
            if a = r then mq.queues r ++ [m] else mq.queues a } := by
      rw [MessageQueue.send, if_neg hnot]
    have h2 : (mq.send r m).send r m' = mq.send r m := by
      rw [MessageQueue.send, if_pos]
      rw [h1, hid]
      simp
    refine ⟨?_, h2⟩
    rw [h2, h1]
    simp
  · intro hmem
    rw [MessageQueue.send, if_pos hmem]

/-- Witness for C5: a fresh fabric, the same envelope sent twice to the
leader mailbox, exactly one copy enqueued. -/
theorem claim_C5_dedup_witness :
    c5_msg.message_id ∉ MessageQueue.init.message_ids "leader" ∧
    ((MessageQueue.init.send "leader" c5_msg).send "leader" c5_msg).queues "leader"
      = MessageQueue.init.queues "leader" ++ [c5_msg] :=
  ⟨by simp [MessageQueue.init],
   ((claim_C5_dedup MessageQueue.init "leader" c5_msg c5_msg rfl).1
      (by simp [MessageQueue.init])).1⟩

/-- Claim C10: `is_alive` compares only the seconds component of the elapsed
time since the last heartbeat — `(now − t) % 86400` — against the timeout, so
a heartbeat age of one day plus one second (86401 s > 60 s) still reports the
agent alive with `timeout = 60`.  (ahp.py lines 236-241; the async variant on
lines 624-629 is the identical computation.) -/
theorem claim_C10_heartbeat_wraparound (mq : MessageQueue) (agent : String) (t : Nat)
    (hhb : mq.heartbeats agent = some t) :
    mq.is_alive agent (t + 86401) 60 = true ∧ 60 < 86401 := by
  constructor
  · simp [MessageQueue.is_alive, MessageQueue.get_heartbeat, hhb]
  · omega

/-- Witness for C10: heartbeat recorded at t = 5; one day and one second
later the agent is still reported alive. -/
theorem claim_C10_heartbeat_wraparound_witness :
    (MessageQueue.init.update_heartbeat "agent_head" 5).is_alive "agent_head"
      (5 + 86401) 60 = true :=
  (claim_C10_heartbeat_wraparound (MessageQueue.init.update_heartbeat "agent_head" 5)
    "agent_head" 5 (by simp [MessageQueue.init, MessageQueue.update_heartbeat])).1

/-- Claim C1 (code evaluation at the failing input): in the sync
`_collect_results`, the result-handling statements are dead code (they sit
after a `continue` inside the `if msg.method == AHPMethod.PROGRESS:` branch),
so feeding the loop the four replies of the partial-failure scenario — three
success RESULTs and one failed RESULT — records nothing: the result map is
empty, no sender is marked received, nothing is dead-lettered, and the
missing report names all four agents.  The intended demultiplexer
reconstructed from the unreachable statements yields what the claim (and
spec §8) describe: a 3-entry result map, one dead-letter entry for the failed
worker, and an empty missing set. -/
theorem claim_C1_collect_partial_failure :
    (collect_results_actual MessageQueue.init c1_msgs).results = [] ∧
    (collect_results_actual MessageQueue.init c1_msgs).received = [] ∧
    (collect_results_actual MessageQueue.init c1_msgs).mq.dlq "agent_shoes" = [] ∧
    missing_after c1_tasks (collect_results_actual MessageQueue.init c1_msgs)
      = ["agent_head", "agent_top", "agent_bottom", "agent_shoes"] ∧
    (collect_results_intended 99 MessageQueue.init c1_msgs).results.length = 3 ∧
    ((collect_results_intended 99 MessageQueue.init c1_msgs).mq.dlq
        "agent_shoes").length = 1 ∧
    missing_after c1_tasks (collect_results_intended 99 MessageQueue.init c1_msgs)
      = [] := by
  refine ⟨rfl, rfl, rfl, rfl, rfl, rfl, rfl⟩

/-- Counterexample to claim C7 as stated: the claim quantifies over *every*
budget, but at `max_tokens = 0` the falsy budget is replaced by the default
500 (`limit = max_tokens or self.default_limit`), so the context section is
appended even though the claimed remaining budget
`0 − len(parts) − 50 ≤ 100` would require it to be omitted. -/
theorem claim_C7_counterexample :
    TokenController.init.create_compact_instruction {} {} "hello" (some 0)
      = "Task: unknown\nTarget: User\nContext: hello" ∧
    (0 : ℤ) - (((header_parts {} {}).map String.length).sum : ℤ) - 50 ≤ 100 := by
  constructor
  · simp only [TokenController.create_compact_instruction, String.take_eq]
    decide
  · decide

/-- Claim C7 (amended to caller budgets ≥ 1, where `max_tokens or default`
keeps the value given by the caller): for every profile, task, non-empty context and
budget `n ≥ 1`, the context section is appended iff the remaining budget
`n − len(header parts) − 50` is strictly greater than 100 characters, with
the context truncated to exactly that remaining budget; otherwise the output
is exactly the header parts — which are themselves never dropped or
truncated. -/
theorem claim_C7_token_budget (tc : TokenController) (p : UserProfile)
    (t : TaskSpec) (context : String) (n : Nat) (hc : context ≠ "") (hn : 1 ≤ n) :
    (100 < (n : ℤ) - (((header_parts p t).map String.length).sum : ℤ) - 50 →
      tc.create_compact_instruction p t context (some n)
        = String.intercalate "\n" (header_parts p t ++
            ["Context: " ++ context.take
              ((n : ℤ) - (((header_parts p t).map String.length).sum : ℤ) - 50).toNat])) ∧
    ((n : ℤ) - (((header_parts p t).map String.length).sum : ℤ) - 50 ≤ 100 →
      tc.create_compact_instruction p t context (some n)
        = String.intercalate "\n" (header_parts p t)) := by
  have hn0 : ¬ (n = 0) := by omega
  constructor
  · intro hav
    simp only [TokenController.create_compact_instruction, hn0, if_false, hc, ne_eq,
      not_false_eq_true, if_true, hav]
  · intro hav
    simp only [TokenController.create_compact_instruction, hn0, if_false, hc, ne_eq,
      not_false_eq_true, if_true, not_lt.mpr hav]

/-- Witness for C7 at a concrete ample budget (n = 200, empty profile/task,
context "hello"): remaining budget 125 > 100, context included verbatim. -/
theorem claim_C7_token_budget_witness :
    ("hello" ≠ "" ∧ 1 ≤ 200) ∧
    TokenController.init.create_compact_instruction {} {} "hello" (some 200)
      = "Task: unknown\nTarget: User\nContext: hello" := by
  refine ⟨⟨by decide, by omega⟩, ?_⟩
  have h := (claim_C7_token_budget TokenController.init {} {} "hello" 200
    (by decide) (by omega)).1 (by decide)
  rw [h, String.take_eq]
  decide

/-- Claim C9: a caller-requested budget of 0 is falsy, so
`create_compact_instruction` behaves exactly as with the default limit 500 —
in particular a context section can still be included under a requested
budget of 0. -/
theorem claim_C9_zero_budget (p : UserProfile) (t : TaskSpec) (context : String) :
    TokenController.init.create_compact_instruction p t context (some 0)
      = TokenController.init.create_compact_instruction p t context (some 500) ∧
    TokenController.init.create_compact_instruction {} {} "hello" (some 0)
      ≠ String.intercalate "\n" (header_parts {} {}) := by
  constructor
  · rfl
  · simp only [TokenController.create_compact_instruction, String.take_eq]
    decide

/-- Claim C2 (code evaluation): `register_task` caches a `TaskRecord`
dataclass with status Pending, but `claim_task` reads the cached object with
dict access (`task.get("status")`, registry.py line 146), which on a
dataclass raises `AttributeError` — so claiming a freshly registered task
raises instead of returning the documented true/false. -/
theorem claim_C2_claim_task_raises (reg : TaskRegistry)
    (fresh_id session_id title description category : String)
    (parent : Option String) (max_retries now now2 : Nat) (agent : String) :
    (∃ r : TaskRecord,
      (reg.register_task fresh_id session_id title description category parent
          max_retries now).2.memory_cache fresh_id = some (.record r) ∧
      r.status = .pending) ∧
    (reg.register_task fresh_id session_id title description category parent
        max_retries now).2.claim_task agent fresh_id now2
      = .error "AttributeError: TaskRecord object has no attribute get" := by
  constructor
  · refine ⟨{ task_id := fresh_id, session_id := session_id, title := title,
              description := description, category := category,
              parent_task_id := parent, max_retries := max_retries,
              status := .pending, created_at := now, updated_at := now }, ?_, rfl⟩
    simp [TaskRegistry.register_task]
  · simp [TaskRegistry.register_task, TaskRegistry.claim_task, claim_check]

/-- Counterexample to claim C8 as stated: cancelling a freshly registered
task (update_status to Cancelled, the claimed third terminal status) leaves
`completed_at` unset — the code stamps it only for COMPLETED and FAILED
(registry.py line 201). -/
theorem claim_C8_counterexample :
    completed_at_of
      ((TaskRegistry.init.register_task "task-1" "s-1" "title" "" "" none 3 0).2.cancel_task
        "task-1" 5) "task-1" = some none ∧
    status_of
      ((TaskRegistry.init.register_task "task-1" "s-1" "title" "" "" none 3 0).2.cancel_task
        "task-1" 5) "task-1" = some .cancelled := by
  constructor
  · rfl
  · rfl

/-- Claim C8 (amended): for every task whose record is cached as a dataclass
(as `register_task` leaves it), `update_status` sets `completed_at := now`
iff the new status is Completed or Failed; for Cancelled and the non-terminal
statuses `completed_at` is left unchanged (hence unset on a fresh record);
the status itself is always updated to the requested one. -/
theorem claim_C8_terminal_timestamp (reg : TaskRegistry) (task_id : String)
    (r : TaskRecord) (h : reg.memory_cache task_id = some (.record r))
    (status : TaskStatus) (result : Option (List (String × String)))
    (err : Option String) (now : Nat) :
    completed_at_of (reg.update_status task_id status result err now) task_id
      = some (if status = .completed ∨ status = .failed then some now
              else r.completed_at) ∧
    status_of (reg.update_status task_id status result err now) task_id
      = some status := by
  rw [TaskRegistry.update_status, h]
  cases result <;> cases err <;>
    by_cases hs : status = .completed ∨ status = .failed <;>
      simp [completed_at_of, status_of, hs, apply_ite TaskRecord.completed_at,
        apply_ite TaskRecord.status]

/-- Witness for C8: completing a freshly registered task stamps
`completed_at`; cancelling leaves it unset. -/
theorem claim_C8_terminal_timestamp_witness :
    completed_at_of
      ((TaskRegistry.init.register_task "task-1" "s-1" "title" "" "" none 3 0).2.update_status
        "task-1" .completed none none 7) "task-1" = some (some 7) := by
  have h := (claim_C8_terminal_timestamp
    (TaskRegistry.init.register_task "task-1" "s-1" "title" "" "" none 3 0).2
    "task-1"
    { task_id := "task-1", session_id := "s-1", title := "title",
      description := "", category := "", parent_task_id := none,
      max_retries := 3, status := .pending, created_at := 0, updated_at := 0 }
    rfl .completed none none 7).1
  simpa using h

end StyleAgent
